import Mathlib

/-!
Verification of the Event Service (src/backend/app.py).

The service is a CRUD HTTP layer over a Cosmos DB container of event
documents.  We embed it shallowly:

* the document store is an association list of stored events keyed by
  their `id` string (Cosmos enforces id uniqueness; every operation of
  the service addresses documents by id, with partition key equal to id);
* a parsed JSON request body is a finite list of string key/value pairs
  (`request.get_json()` returning `none` models an absent or unparseable
  body; the service only ever reads string-valued fields);
* Python truthiness on an optional string field (`not data.get(k)`)
  is `truthy`: `none` and the empty string are falsy;
* the Cosmos aggregate `SELECT VALUE MAX(c.id)` over string ids returns
  the greatest id in the store under ordinary string (code-point)
  comparison, or no row when the container is empty — this is
  `cosmosMaxId`;
* Python `int(s)` applied to an id string, with its `ValueError` fallback,
  is `pyInt` (integer parse returning `Option Int`);
* each HTTP handler becomes a total function from the store and the
  request to a response constructor that carries the response record and
  the resulting store, so that absence of mutation is visible in the
  result.  The `status` projections give the HTTP status codes.

Store failures other than not-found/already-exists (the 500 paths) are
not modelled: the store in the model always answers.
-/

namespace EventService

/-- A stored event document: the four fields the service persists. -/
structure StoredEvent where
  id : String
  name : String
  date : String
  description : String
deriving Repr, DecidableEq

/-- The Cosmos container contents: stored event documents, ids unique. -/
abbrev Store := List StoredEvent

/-- A parsed JSON object body: finitely many string-valued fields. -/
abbrev JsonObj := List (String × String)

/-- Look a document up by id (`container.read_item(item=i, partition_key=i)`). -/
def findEvent (s : Store) (i : String) : Option StoredEvent :=
  s.find? (fun e => e.id == i)

/-- The value `data.get(k)` of field `k` of the body, if present. -/
def jget (data : JsonObj) (k : String) : Option String :=
  data.lookup k

/-- Python truthiness of an optional string: `None` and `""` are falsy. -/
def truthy : Option String → Bool
  | none => false
  | some s => !s.isEmpty

/-- Lexicographic comparison of two character lists, character by
character by code point. -/
def charListLt : List Char → List Char → Bool
  | _, [] => false
  | [], _ :: _ => true
  | a :: as, b :: bs =>
    if a < b then true
    else if b < a then false
    else charListLt as bs

/-- Code-point lexicographic order on strings: the order in which the
Cosmos aggregate `MAX` compares string values. -/
def strLt (a b : String) : Bool :=
  charListLt a.data b.data

/-- Binary maximum of two strings under code-point comparison, as the
Cosmos aggregate `MAX` compares strings. -/
def strMax (a b : String) : String :=
  if strLt a b then b else a

/-- The aggregate `SELECT VALUE MAX(c.id) FROM c`: the greatest stored id
under string comparison, or no row when the container is empty. -/
def cosmosMaxId (s : Store) : Option String :=
  s.foldl
    (fun acc e =>
      match acc with
      | none => some e.id
      | some m => some (strMax m e.id))
    none

/-- Value of a (non-empty, all-digit) character list read as a base-10
numeral. -/
def digitsToNat (l : List Char) : Nat :=
  l.foldl (fun n c => n * 10 + (c.toNat - 48)) 0

/-- Python `int(s)` on an id string: an optional sign followed by one or
more decimal digits; `none` models the `ValueError` raised otherwise
(the whitespace and underscore forms Python also accepts are not
modelled). -/
def pyInt (s : String) : Option Int :=
  match s.data with
  | [] => none
  | '-' :: rest =>
    if rest ≠ [] ∧ rest.all Char.isDigit then some (-(digitsToNat rest : Int)) else none
  | '+' :: rest =>
    if rest ≠ [] ∧ rest.all Char.isDigit then some ((digitsToNat rest : Int)) else none
  | l =>
    if l.all Char.isDigit then some ((digitsToNat l : Int)) else none

/-- The id-generation block of `create_event`: query the maximum stored
id, try to parse it as an integer with fallback base 0, and render
base + 1 back to a string. -/
def newId (s : Store) : String :=
  let base : Int :=
    match cosmosMaxId s with
    | none => 0
    | some m => (pyInt m).getD 0
  toString (base + 1)

/-- Response of `POST /events`: 201 with the created record, 400, or 409.
Each constructor carries the store after the request. -/
inductive CreateResp where
  | ok (record : StoredEvent) (store : Store)
  | validation (store : Store)
  | conflict (store : Store)
deriving Repr, DecidableEq

/-- HTTP status of a create response. -/
def CreateResp.status : CreateResp → Nat
  | .ok _ _ => 201
  | .validation _ => 400
  | .conflict _ => 409

/-- The store after a create response. -/
def CreateResp.store : CreateResp → Store
  | .ok _ s => s
  | .validation s => s
  | .conflict s => s

/-- The handler `create_event` (`POST /events`).  Validates presence and truthiness of
`name`, `date`, `description`; takes the body's `id` when truthy, else
generates one with `newId`; inserts unless a document with that id
already exists, in which case Cosmos raises the already-exists error
translated to 409. -/
def create_event (store : Store) (body : Option JsonObj) : CreateResp :=
  match body with
  | none => .validation store
  | some data =>
    if data.isEmpty || !truthy (jget data "name") || !truthy (jget data "date")
        || !truthy (jget data "description") then
      .validation store
    else
      let event_id :=
        if truthy (jget data "id") then (jget data "id").getD "" else newId store
      let record : StoredEvent :=
        { id := event_id
          name := (jget data "name").getD ""
          date := (jget data "date").getD ""
          description := (jget data "description").getD "" }
      match findEvent store event_id with
      | some _ => .conflict store
      | none => .ok record (record :: store)

/-- Response of `GET /events/(id)`: 200 with the record, or 404. -/
inductive GetResp where
  | ok (record : StoredEvent) (store : Store)
  | notFound (store : Store)
deriving Repr, DecidableEq

/-- HTTP status of a get response. -/
def GetResp.status : GetResp → Nat
  | .ok _ _ => 200
  | .notFound _ => 404

/-- The handler `get_event` (`GET /events/(id)`): read the document by id, 404 when
Cosmos raises the not-found error. -/
def get_event (store : Store) (event_id : String) : GetResp :=
  match findEvent store event_id with
  | some e => .ok e store
  | none => .notFound store

/-- Response of `PUT /events/(id)`: 200 with the updated record, 400, or 404. -/
inductive UpdateResp where
  | ok (record : StoredEvent) (store : Store)
  | validation (store : Store)
  | notFound (store : Store)
deriving Repr, DecidableEq

/-- HTTP status of an update response. -/
def UpdateResp.status : UpdateResp → Nat
  | .ok _ _ => 200
  | .validation _ => 400
  | .notFound _ => 404

/-- The store call `container.replace_item`: replace the document with the given id. -/
def replaceEvent (s : Store) (i : String) (r : StoredEvent) : Store :=
  s.map (fun e => if e.id == i then r else e)

/-- The handler `update_event` (`PUT /events/(id)`).  `if not data:` rejects an absent
body and also an empty JSON object, both being falsy in Python; then the
existing document is read, merged field-by-field (`data.get(k, existing[k])`),
and replaced wholesale. -/
def update_event (store : Store) (event_id : String) (body : Option JsonObj) :
    UpdateResp :=
  match body with
  | none => .validation store
  | some data =>
    if data.isEmpty then .validation store
    else
      match findEvent store event_id with
      | none => .notFound store
      | some existing =>
        let updated : StoredEvent :=
          { id := existing.id
            name := (jget data "name").getD existing.name
            date := (jget data "date").getD existing.date
            description := (jget data "description").getD existing.description }
        .ok updated (replaceEvent store existing.id updated)

/-- Response of `DELETE /events/(id)`: 204 with no body, or 404. -/
inductive DeleteResp where
  | noContent (store : Store)
  | notFound (store : Store)
deriving Repr, DecidableEq

/-- HTTP status of a delete response. -/
def DeleteResp.status : DeleteResp → Nat
  | .noContent _ => 204
  | .notFound _ => 404

/-- The handler `delete_event` (`DELETE /events/(id)`): remove the document by id;
404 when no document with that id exists. -/
def delete_event (store : Store) (event_id : String) : DeleteResp :=
  match findEvent store event_id with
  | none => .notFound store
  | some _ => .noContent (store.filter (fun e => e.id != event_id))

/-! ## Shared concrete fixtures -/

/-- The create body of the spec's concrete scenario. -/
def demoBody : JsonObj :=
  [("name", "Demo"), ("date", "2024-01-01"), ("description", "d")]

/-- The record the scenario's first create persists. -/
def demoRec1 : StoredEvent :=
  { id := "1", name := "Demo", date := "2024-01-01", description := "d" }

/-- The record the scenario's second create persists. -/
def demoRec2 : StoredEvent :=
  { id := "2", name := "Demo", date := "2024-01-01", description := "d" }

/-- A stored event with the given id and fixed non-empty fields. -/
def plainEvent (i : String) : StoredEvent :=
  { id := i, name := "a", date := "b", description := "c" }

/-! ## The string order used by the Cosmos MAX aggregate -/

theorem charListLt_iff (as bs : List Char) : charListLt as bs = true ↔ as < bs := by
  induction as generalizing bs with
  | nil =>
    cases bs with
    | nil =>
      constructor
      · intro h; rw [show charListLt [] [] = false from rfl] at h; cases h
      · intro h; cases h
    | cons b t =>
      constructor
      · intro _; exact List.Lex.nil
      · intro _; rfl
  | cons a as ih =>
    cases bs with
    | nil =>
      constructor
      · intro h; rw [show charListLt (a :: as) [] = false from rfl] at h; cases h
      · intro h; cases h
    | cons b bs =>
      rw [show charListLt (a :: as) (b :: bs)
            = if a < b then true else if b < a then false else charListLt as bs from rfl]
      by_cases hab : a < b
      · rw [if_pos hab]
        constructor
        · intro _; exact List.Lex.rel hab
        · intro _; rfl
      · rw [if_neg hab]
        by_cases hba : b < a
        · rw [if_pos hba]
          constructor
          · intro h; cases h
          · intro h
            cases h with
            | cons h2 => exact absurd hba (lt_irrefl a)
            | rel h2 => exact absurd h2 hab
        · rw [if_neg hba]
          have hev : a = b := le_antisymm (not_lt.mp hba) (not_lt.mp hab)
          subst hev
          constructor
          · intro h; exact List.Lex.cons ((ih bs).mp h)
          · intro h
            cases h with
            | cons h2 => exact (ih bs).mpr h2
            | rel h2 => exact absurd h2 (lt_irrefl a)

theorem strLt_iff (a b : String) : strLt a b = true ↔ a < b := by
  rw [String.lt_iff_toList_lt]
  exact charListLt_iff a.data b.data

theorem strMax_eq_max (a b : String) : strMax a b = max a b := by
  rw [max_def, strMax]
  rcases lt_trichotomy a b with h | h | h
  · rw [if_pos ((strLt_iff a b).mpr h), if_pos h.le]
  · subst h
    by_cases hc : strLt a a = true
    · exact absurd ((strLt_iff a a).mp hc) (lt_irrefl a)
    · rw [if_neg hc, if_pos le_rfl]
  · have hc : ¬ strLt a b = true := fun hh => absurd ((strLt_iff a b).mp hh) (asymm h)
    rw [if_neg hc, if_neg (not_le.mpr h)]

theorem foldl_cosmos_some (l : List StoredEvent) (m : String) :
    l.foldl
      (fun acc e =>
        match acc with
        | none => some e.id
        | some x => some (strMax x e.id))
      (some m)
    = some (l.foldl (fun x e => max x e.id) m) := by
  induction l generalizing m with
  | nil => rfl
  | cons a t ih =>
    show t.foldl _ (some (strMax m a.id)) = some (t.foldl (fun x e => max x e.id) (max m a.id))
    rw [← strMax_eq_max]
    exact ih (strMax m a.id)

theorem cosmosMaxId_eq_max? (s : Store) :
    cosmosMaxId s = (s.map (fun e => e.id)).max? := by
  cases s with
  | nil => rfl
  | cons a t =>
    show t.foldl _ (some a.id) = _
    rw [foldl_cosmos_some]
    simp [List.max?, List.foldl_map]

/-! ## Claim C1: assignment of generated ids -/

/-- A rendering of claim C1's stated rule, from its words: one more than
the maximum over the integer parses of all stored ids (base 0 when no id
parses), rendered as a string. -/
def claimNumericAssignedId (s : Store) : String :=
  toString ((s.filterMap (fun e => pyInt e.id)).foldl max 0 + 1)

/-- The rule the code actually follows: the integer parse of the
lexicographically greatest stored id, with base 0 on an empty store or a
failed parse, plus one, rendered as a string. -/
def amendedAssignedId (s : Store) : String :=
  toString ((((s.map (fun e => e.id)).max?).bind pyInt).getD 0 + 1)

theorem newId_eq_amended (s : Store) : newId s = amendedAssignedId s := by
  unfold newId amendedAssignedId
  rw [cosmosMaxId_eq_max?]
  cases h : (s.map (fun e => e.id)).max? with
  | none => rfl
  | some m => cases hp : pyInt m <;> simp [hp]

/-- A store holding events with ids "2" and "10": its numerically
greatest parseable id is 10, but its lexicographically greatest id is
"2". -/
def c1Store : Store := [plainEvent "2", plainEvent "10"]

/-! ## Unfolding equations for the handlers -/

theorem create_event_some (store : Store) (data : JsonObj) :
    create_event store (some data) =
      if data.isEmpty || !truthy (jget data "name") || !truthy (jget data "date")
          || !truthy (jget data "description") then
        CreateResp.validation store
      else
        let event_id :=
          if truthy (jget data "id") then (jget data "id").getD "" else newId store
        let record : StoredEvent :=
          { id := event_id
            name := (jget data "name").getD ""
            date := (jget data "date").getD ""
            description := (jget data "description").getD "" }
        match findEvent store event_id with
        | some _ => CreateResp.conflict store
        | none => CreateResp.ok record (record :: store) := rfl

theorem update_event_some (store : Store) (event_id : String) (data : JsonObj) :
    update_event store event_id (some data) =
      if data.isEmpty then UpdateResp.validation store
      else
        match findEvent store event_id with
        | none => UpdateResp.notFound store
        | some existing =>
          let updated : StoredEvent :=
            { id := existing.id
              name := (jget data "name").getD existing.name
              date := (jget data "date").getD existing.date
              description := (jget data "description").getD existing.description }
          UpdateResp.ok updated (replaceEvent store existing.id updated) := rfl

/-- C1, as stated, is false: on `c1Store` (ids "2" and "10") a create
without an explicit id assigns "3" — one more than the integer parse of
the lexicographically greatest id "2" — not "11", one more than the
maximum parseable numeric id 10. -/
theorem C1_counterexample :
    claimNumericAssignedId c1Store = "11"
    ∧ create_event c1Store (some demoBody)
        = .ok { id := "3", name := "Demo", date := "2024-01-01", description := "d" }
            ({ id := "3", name := "Demo", date := "2024-01-01", description := "d" } :: c1Store)
    ∧ ("3" : String) ≠ "11" := by
  refine ⟨by decide, by decide, by decide⟩

/-- C1 as amended: for every create without a truthy explicit id that
succeeds, the assigned id is one more than the integer parse (base 0 on
a failed parse or an empty store) of the lexicographically greatest
stored id, rendered as a string; on an empty store the scenario's first
create gets id "1" and an identical second create gets id "2". -/
theorem C1_generated_id :
    (∀ (store : Store) (data : JsonObj) (r : StoredEvent) (s2 : Store),
        truthy (jget data "id") = false →
        create_event store (some data) = .ok r s2 →
        r.id = amendedAssignedId store)
    ∧ create_event [] (some demoBody) = .ok demoRec1 [demoRec1]
    ∧ create_event [demoRec1] (some demoBody) = .ok demoRec2 [demoRec2, demoRec1] := by
  refine ⟨?_, by decide, by decide⟩
  intro store data r s2 hid hok
  rw [create_event_some] at hok
  by_cases hval : (data.isEmpty || !truthy (jget data "name") || !truthy (jget data "date")
      || !truthy (jget data "description")) = true
  · rw [if_pos hval] at hok; cases hok
  · rw [if_neg hval, hid] at hok
    rw [if_neg Bool.false_ne_true] at hok
    dsimp only at hok
    cases hfind : findEvent store (newId store) with
    | some e => rw [hfind] at hok; cases hok
    | none =>
      rw [hfind] at hok
      cases hok
      exact newId_eq_amended store

/-- Witness for C1: the scenario's second create, on the store holding
only the first record, assigns exactly the amended rule's id "2". -/
theorem C1_generated_id_witness :
    truthy (jget demoBody "id") = false
    ∧ demoRec2.id = amendedAssignedId [demoRec1] := by
  refine ⟨by decide, ?_⟩
  exact C1_generated_id.1 [demoRec1] demoBody demoRec2 [demoRec2, demoRec1] (by decide) (by decide)

/-! ## Claim C2: update body validation -/

/-- C2, as stated, is false: the empty JSON object is a present,
parseable body, yet update on an existing id answers 400, because
Python's `if not data:` also treats the parsed empty dict as falsy. -/
theorem C2_counterexample :
    update_event [demoRec1] "1" (some []) = .validation [demoRec1]
    ∧ (update_event [demoRec1] "1" (some [])).status = 400
    ∧ findEvent [demoRec1] "1" = some demoRec1 := by
  refine ⟨by decide, by decide, by decide⟩

/-- C2 as amended: update answers 400 exactly when the body is absent or
unparseable (`none`) or parses to the empty JSON object. -/
theorem C2_update_validation_iff :
    ∀ (store : Store) (event_id : String) (body : Option JsonObj),
      (update_event store event_id body).status = 400
      ↔ (body = none ∨ body = some []) := by
  intro store i body
  cases body with
  | none => simp [update_event, UpdateResp.status]
  | some data =>
    cases data with
    | nil => simp [update_event_some, UpdateResp.status]
    | cons p t =>
      rw [update_event_some]
      cases hfind : findEvent store i with
      | none => simp [hfind, UpdateResp.status]
      | some e => simp [hfind, UpdateResp.status]

/-- Witness for C2: an absent body is answered with 400. -/
theorem C2_update_validation_iff_witness :
    (update_event [demoRec1] "1" none).status = 400 :=
  (C2_update_validation_iff [demoRec1] "1" none).mpr (Or.inl rfl)

/-! ## Claim C3: create validation and absence of mutation -/

/-- C3: whenever `name`, `date` or `description` is missing or empty in
the create body, create answers 400 with the store untouched (the
validation branch is taken before any store operation). -/
theorem C3_create_missing_fields :
    ∀ (store : Store) (data : JsonObj),
      ((jget data "name" = none ∨ jget data "name" = some "")
        ∨ (jget data "date" = none ∨ jget data "date" = some "")
        ∨ (jget data "description" = none ∨ jget data "description" = some "")) →
      create_event store (some data) = .validation store
      ∧ (create_event store (some data)).status = 400 := by
  intro store data h
  have h1 : truthy (none : Option String) = false := rfl
  have h2 : truthy (some "") = false := by decide
  have hcond : (data.isEmpty || !truthy (jget data "name") || !truthy (jget data "date")
      || !truthy (jget data "description")) = true := by
    rcases h with (h | h) | (h | h) | (h | h) <;> simp [h, h1, h2]
  constructor
  · rw [create_event_some, if_pos hcond]
  · rw [create_event_some, if_pos hcond]; rfl

/-- Witness for C3: a body lacking `date` (and `description`) is
rejected with 400 and the (empty) store is unchanged. -/
theorem C3_create_missing_fields_witness :
    (jget [("name", "Demo")] "date" = none ∨ jget [("name", "Demo")] "date" = some "")
    ∧ create_event [] (some [("name", "Demo")]) = CreateResp.validation []
    ∧ (create_event [] (some [("name", "Demo")])).status = 400 := by
  refine ⟨Or.inl (by decide), ?_⟩
  exact C3_create_missing_fields [] [("name", "Demo")] (Or.inr (Or.inl (Or.inl (by decide))))

/-! ## Claim C4: duplicate explicit id -/

/-- The scenario body extended with the explicit id "1". -/
def demoBodyWithId : JsonObj := demoBody ++ [("id", "1")]

/-- C4: a valid create whose explicit (non-empty) id is already stored
answers 409 and leaves the store — in particular the record already
stored under that id — unchanged. -/
theorem C4_create_conflict :
    ∀ (store : Store) (data : JsonObj) (eid : String) (r : StoredEvent),
      truthy (jget data "name") = true → truthy (jget data "date") = true →
      truthy (jget data "description") = true →
      jget data "id" = some eid → eid.isEmpty = false →
      findEvent store eid = some r →
      create_event store (some data) = .conflict store
      ∧ (create_event store (some data)).status = 409
      ∧ findEvent ((create_event store (some data)).store) eid = some r := by
  intro store data eid r hn hd hde hid hne hfind
  have hdatane : data.isEmpty = false := by
    cases data with
    | nil => simp [jget] at hid
    | cons p t => rfl
  have hcond : ¬ (data.isEmpty || !truthy (jget data "name") || !truthy (jget data "date")
      || !truthy (jget data "description")) = true := by
    rw [hdatane, hn, hd, hde]; exact Bool.false_ne_true
  have htr : truthy (jget data "id") = true := by
    rw [hid]; simp [truthy, hne]
  have hmain : create_event store (some data) = .conflict store := by
    rw [create_event_some, if_neg hcond, htr, if_pos rfl, hid, Option.getD_some]
    dsimp only
    rw [hfind]
  refine ⟨hmain, ?_, ?_⟩
  · rw [hmain]; rfl
  · rw [hmain]; exact hfind

/-- Witness for C4: creating the demo body with explicit id "1" over a
store already holding id "1" conflicts and leaves the record in place. -/
theorem C4_create_conflict_witness :
    create_event [demoRec1] (some demoBodyWithId) = .conflict [demoRec1]
    ∧ (create_event [demoRec1] (some demoBodyWithId)).status = 409
    ∧ findEvent ((create_event [demoRec1] (some demoBodyWithId)).store) "1" = some demoRec1 :=
  C4_create_conflict [demoRec1] demoBodyWithId "1" demoRec1
    (by decide) (by decide) (by decide) (by decide) (by decide) (by decide)

/-! ## Claim C5: update merge semantics -/

theorem findEvent_replaceEvent (s : Store) (i : String) (rnew : StoredEvent)
    (hr : rnew.id = i) (e : StoredEvent) :
    findEvent s i = some e →
    findEvent (replaceEvent s i rnew) i = some rnew := by
  induction s with
  | nil => intro he; simp [findEvent] at he
  | cons a t ih =>
    intro he
    by_cases ha : (a.id == i) = true
    · simp [replaceEvent, findEvent, List.find?, ha, hr]
    · have he2 : findEvent t i = some e := by
        simpa [findEvent, List.find?, ha] using he
      have h3 := ih he2
      simpa [replaceEvent, findEvent, List.find?, ha] using h3

/-- C5: a successful update of an existing id produces the merged record
— id kept, each field taken from the payload when present there, else
retained — and stores it under the unchanged id. -/
theorem C5_update_merge :
    ∀ (store : Store) (i : String) (data : JsonObj) (existing r : StoredEvent) (s2 : Store),
      findEvent store i = some existing →
      update_event store i (some data) = .ok r s2 →
      r.id = existing.id
      ∧ r.name = (jget data "name").getD existing.name
      ∧ r.date = (jget data "date").getD existing.date
      ∧ r.description = (jget data "description").getD existing.description
      ∧ findEvent s2 existing.id = some r := by
  intro store i data existing r s2 hfind hok
  rw [update_event_some] at hok
  by_cases hemp : data.isEmpty = true
  · rw [if_pos hemp] at hok; cases hok
  · rw [if_neg hemp, hfind] at hok
    dsimp only at hok
    have hp := List.find?_some hfind
    have hi : existing.id = i := by simpa using hp
    cases hok
    refine ⟨rfl, rfl, rfl, rfl, ?_⟩
    refine findEvent_replaceEvent store existing.id _ ?_ existing ?_
    · rfl
    · rw [hi]; exact hfind

/-- The record stored after updating only the name of the scenario's
first record to "X". -/
def demoRec1X : StoredEvent :=
  { id := "1", name := "X", date := "2024-01-01", description := "d" }

/-- Witness for C5: updating id "1" with payload name "X" changes only
the name; date and description keep their prior values. -/
theorem C5_update_merge_witness :
    demoRec1X.id = demoRec1.id
    ∧ demoRec1X.name = (jget [("name", "X")] "name").getD demoRec1.name
    ∧ demoRec1X.date = (jget [("name", "X")] "date").getD demoRec1.date
    ∧ demoRec1X.description = (jget [("name", "X")] "description").getD demoRec1.description
    ∧ findEvent [demoRec1X] demoRec1.id = some demoRec1X :=
  C5_update_merge [demoRec1] "1" [("name", "X")] demoRec1 demoRec1X [demoRec1X]
    (by decide) (by decide)

/-! ## Claim C6: absent ids answer 404 -/

/-- C6: for an id not in the store, get, update (with a non-empty body)
and delete all answer 404 with the store unchanged. -/
theorem C6_not_found :
    ∀ (store : Store) (i : String) (data : JsonObj),
      findEvent store i = none → data.isEmpty = false →
      get_event store i = .notFound store
      ∧ (get_event store i).status = 404
      ∧ update_event store i (some data) = .notFound store
      ∧ (update_event store i (some data)).status = 404
      ∧ delete_event store i = .notFound store
      ∧ (delete_event store i).status = 404 := by
  intro store i data hfind hne
  have hemp : ¬ data.isEmpty = true := by rw [hne]; exact Bool.false_ne_true
  have hg : get_event store i = .notFound store := by
    unfold get_event; rw [hfind]
  have hu : update_event store i (some data) = .notFound store := by
    rw [update_event_some, if_neg hemp, hfind]
  have hdel : delete_event store i = .notFound store := by
    unfold delete_event; rw [hfind]
  exact ⟨hg, by rw [hg]; rfl, hu, by rw [hu]; rfl, hdel, by rw [hdel]; rfl⟩

/-- Witness for C6: id "9" is not in the one-record store, so get,
update and delete all answer 404. -/
theorem C6_not_found_witness :
    get_event [demoRec1] "9" = .notFound [demoRec1]
    ∧ (get_event [demoRec1] "9").status = 404
    ∧ update_event [demoRec1] "9" (some [("name", "X")]) = .notFound [demoRec1]
    ∧ (update_event [demoRec1] "9" (some [("name", "X")])).status = 404
    ∧ delete_event [demoRec1] "9" = .notFound [demoRec1]
    ∧ (delete_event [demoRec1] "9").status = 404 :=
  C6_not_found [demoRec1] "9" [("name", "X")] (by decide) (by decide)

/-! ## Claim C7: the non-empty-fields data-model invariant -/

/-- The spec's data-model requirement on a stored record: `name`, `date`
and `description` are non-empty. -/
def goodRecord (e : StoredEvent) : Prop :=
  e.name ≠ "" ∧ e.date ≠ "" ∧ e.description ≠ ""

/-- Every record in the store satisfies the data-model requirement. -/
def goodStore (s : Store) : Prop :=
  ∀ e ∈ s, goodRecord e

instance (e : StoredEvent) : Decidable (goodRecord e) := by
  unfold goodRecord; infer_instance

instance (s : Store) : Decidable (goodStore s) := by
  unfold goodStore; exact List.decidableBAll _ s

theorem bool_not_eq_false (b : Bool) (h : (!b) = false) : b = true := by
  cases b with
  | true => rfl
  | false => cases h

theorem truthy_getD (o : Option String) (h : truthy o = true) : o.getD "" ≠ "" := by
  cases o with
  | none => simp [truthy] at h
  | some s =>
    rw [Option.getD_some]
    intro hs
    subst hs
    exact absurd h (by decide)

theorem merge_field_ne (o : Option String) (d : String) (ho : o ≠ some "") (hd2 : d ≠ "") :
    o.getD d ≠ "" := by
  cases o with
  | none => simpa using hd2
  | some v =>
    rw [Option.getD_some]
    intro hv
    subst hv
    exact ho rfl

/-- C7, as stated, is false: update performs no validation, so updating
the (invariant-satisfying) one-record store with the payload mapping
`name` to the empty string stores a record with an empty name. -/
theorem C7_counterexample :
    goodStore [demoRec1]
    ∧ update_event [demoRec1] "1" (some [("name", "")])
        = .ok { id := "1", name := "", date := "2024-01-01", description := "d" }
            [{ id := "1", name := "", date := "2024-01-01", description := "d" }]
    ∧ ¬ goodRecord { id := "1", name := "", date := "2024-01-01", description := "d" } := by
  refine ⟨by decide, by decide, by decide⟩

/-- C7 as amended: create always preserves the non-empty-fields
invariant, and update preserves it exactly when the payload does not
explicitly set one of the three fields to the empty string. -/
theorem C7_invariant :
    (∀ (store : Store) (body : Option JsonObj) (r : StoredEvent) (s2 : Store),
        goodStore store → create_event store body = .ok r s2 → goodStore s2)
    ∧ (∀ (store : Store) (i : String) (data : JsonObj) (r : StoredEvent) (s2 : Store),
        goodStore store →
        jget data "name" ≠ some "" → jget data "date" ≠ some "" →
        jget data "description" ≠ some "" →
        update_event store i (some data) = .ok r s2 → goodStore s2) := by
  constructor
  · intro store body r s2 hgood hok
    cases body with
    | none => cases hok
    | some data =>
      rw [create_event_some] at hok
      by_cases hval : (data.isEmpty || !truthy (jget data "name") || !truthy (jget data "date")
          || !truthy (jget data "description")) = true
      · rw [if_pos hval] at hok; cases hok
      · rw [if_neg hval] at hok
        have hcb : (data.isEmpty || !truthy (jget data "name") || !truthy (jget data "date")
            || !truthy (jget data "description")) = false := by
          cases hb : (data.isEmpty || !truthy (jget data "name") || !truthy (jget data "date")
              || !truthy (jget data "description")) with
          | true => exact absurd hb hval
          | false => rfl
        simp only [Bool.or_eq_false_iff] at hcb
        obtain ⟨⟨⟨hie, hn⟩, hd⟩, hds⟩ := hcb
        dsimp only at hok
        cases hfind : findEvent store
            (if truthy (jget data "id") = true then (jget data "id").getD "" else newId store) with
        | some e => rw [hfind] at hok; cases hok
        | none =>
          rw [hfind] at hok
          cases hok
          intro x hx
          rcases List.mem_cons.mp hx with hx | hx
          · subst hx
            exact ⟨truthy_getD _ (bool_not_eq_false _ hn), truthy_getD _ (bool_not_eq_false _ hd),
              truthy_getD _ (bool_not_eq_false _ hds)⟩
          · exact hgood x hx
  · intro store i data r s2 hgood hn hd hds hok
    rw [update_event_some] at hok
    by_cases hemp : data.isEmpty = true
    · rw [if_pos hemp] at hok; cases hok
    · rw [if_neg hemp] at hok
      cases hfind : findEvent store i with
      | none => rw [hfind] at hok; cases hok
      | some existing =>
        rw [hfind] at hok
        dsimp only at hok
        cases hok
        have hmem : existing ∈ store := List.mem_of_find?_eq_some hfind
        have hex := hgood existing hmem
        intro x hx
        rcases List.mem_map.mp hx with ⟨e, he, hfe⟩
        by_cases hcase : (e.id == existing.id) = true
        · rw [if_pos hcase] at hfe
          subst hfe
          exact ⟨merge_field_ne _ _ hn hex.1, merge_field_ne _ _ hd hex.2.1,
            merge_field_ne _ _ hds hex.2.2⟩
        · rw [if_neg hcase] at hfe
          subst hfe
          exact hgood e he

/-- Witness for C7: creating the demo record over the empty store yields
a store satisfying the invariant. -/
theorem C7_invariant_witness :
    goodStore [] ∧ goodStore [demoRec1] :=
  ⟨by decide, C7_invariant.1 [] (some demoBody) demoRec1 [demoRec1] (by decide) (by decide)⟩

/-! ## Claim C8: delete is an idempotent removal -/

theorem findEvent_filter_ne (s : Store) (i : String) :
    findEvent (s.filter (fun e => e.id != i)) i = none := by
  induction s with
  | nil => rfl
  | cons a t ih =>
    by_cases ha : (a.id == i) = true
    · have hp : (a.id != i) = false := by simp [bne, ha]
      simp only [List.filter_cons, hp, if_false]
      exact ih
    · have hp : (a.id != i) = true := by simp [bne, ha]
      simp [List.filter_cons, hp, findEvent, List.find?, ha, ih]

/-- C8: after a successful delete (204, no body), a get of the same id
answers 404, and a second delete of the same id also answers 404. -/
theorem C8_delete_idempotent :
    ∀ (store : Store) (i : String) (s2 : Store),
      delete_event store i = .noContent s2 →
      (delete_event store i).status = 204
      ∧ get_event s2 i = .notFound s2
      ∧ (get_event s2 i).status = 404
      ∧ delete_event s2 i = .notFound s2
      ∧ (delete_event s2 i).status = 404 := by
  intro store i s2 hdel
  have h2 : s2 = store.filter (fun e => e.id != i) := by
    unfold delete_event at hdel
    cases hfind : findEvent store i with
    | none => rw [hfind] at hdel; cases hdel
    | some e => rw [hfind] at hdel; cases hdel; rfl
  have hnone : findEvent s2 i = none := by
    rw [h2]; exact findEvent_filter_ne store i
  have hg : get_event s2 i = .notFound s2 := by
    unfold get_event; rw [hnone]
  have hd2 : delete_event s2 i = .notFound s2 := by
    unfold delete_event; rw [hnone]
  exact ⟨by rw [hdel]; rfl, hg, by rw [hg]; rfl, hd2, by rw [hd2]; rfl⟩

/-- Witness for C8: deleting id "1" from the one-record store empties it,
after which get and delete of "1" answer 404. -/
theorem C8_delete_idempotent_witness :
    (delete_event [demoRec1] "1").status = 204
    ∧ get_event [] "1" = .notFound []
    ∧ (get_event [] "1").status = 404
    ∧ delete_event [] "1" = .notFound []
    ∧ (delete_event [] "1").status = 404 :=
  C8_delete_idempotent [demoRec1] "1" [] (by decide)

/-! ## Claim C9: create/get round trip -/

theorem findEvent_cons_self (t : Store) (r : StoredEvent) :
    findEvent (r :: t) r.id = some r := by
  simp [findEvent, List.find?]

/-- C9: a successful create (201) is immediately readable: a get on the
returned record's id answers 200 with the very record create returned. -/
theorem C9_create_get_roundtrip :
    ∀ (store : Store) (body : Option JsonObj) (r : StoredEvent) (s2 : Store),
      create_event store body = .ok r s2 →
      (create_event store body).status = 201
      ∧ get_event s2 r.id = .ok r s2
      ∧ (get_event s2 r.id).status = 200 := by
  intro store body r s2 hok
  have h201 : (create_event store body).status = 201 := by rw [hok]; rfl
  refine ⟨h201, ?_⟩
  cases body with
  | none => cases hok
  | some data =>
    rw [create_event_some] at hok
    by_cases hval : (data.isEmpty || !truthy (jget data "name") || !truthy (jget data "date")
        || !truthy (jget data "description")) = true
    · rw [if_pos hval] at hok; cases hok
    · rw [if_neg hval] at hok
      dsimp only at hok
      cases hfind : findEvent store
          (if truthy (jget data "id") = true then (jget data "id").getD "" else newId store) with
      | some e => rw [hfind] at hok; cases hok
      | none =>
        rw [hfind] at hok
        cases hok
        constructor
        · unfold get_event
          rw [findEvent_cons_self]
        · unfold get_event
          rw [findEvent_cons_self]
          rfl

/-- Witness for C9: the scenario's first create answers 201 and its
record is read back unchanged with 200. -/
theorem C9_create_get_roundtrip_witness :
    (create_event [] (some demoBody)).status = 201
    ∧ get_event [demoRec1] demoRec1.id = .ok demoRec1 [demoRec1]
    ∧ (get_event [demoRec1] demoRec1.id).status = 200 :=
  C9_create_get_roundtrip [] (some demoBody) demoRec1 [demoRec1] (by decide)

/-! ## Claim C10: a falsy explicit id is treated as absent -/

theorem toDigitsCore_succ_eq (b f n : Nat) (ds : List Char) :
    Nat.toDigitsCore b (f + 1) n ds =
      if n / b = 0 then Nat.digitChar (n % b) :: ds
      else Nat.toDigitsCore b f (n / b) (Nat.digitChar (n % b) :: ds) := rfl

theorem toDigits_length_pos (n : Nat) : 0 < (Nat.toDigits 10 n).length := by
  rw [show Nat.toDigits 10 n = Nat.toDigitsCore 10 (n + 1) n [] from rfl,
      toDigitsCore_succ_eq]
  by_cases h : n / 10 = 0
  · rw [if_pos h]; simp
  · rw [if_neg h, Nat.toDigitsCore_lens_eq]
    simp

theorem nat_repr_ne_empty (n : Nat) : Nat.repr n ≠ "" := by
  intro h
  have h2 : (Nat.repr n).length = 0 := by rw [h]; rfl
  have h3 : (Nat.repr n).length = (Nat.toDigits 10 n).length := rfl
  rw [h3] at h2
  have h4 := toDigits_length_pos n
  omega

theorem toString_int_ne_empty (i : Int) : toString i ≠ "" := by
  cases i with
  | ofNat m => exact nat_repr_ne_empty m
  | negSucc m =>
    intro h
    have h2 : (toString (Int.negSucc m)).length = 0 := by rw [h]; rfl
    have h3 : (toString (Int.negSucc m)).length = (Nat.repr (m + 1)).length + 1 := rfl
    omega

theorem newId_ne_empty (s : Store) : newId s ≠ "" :=
  toString_int_ne_empty _

/-- C10: a create body whose explicit `id` is the falsy empty string is
handled exactly like a body with no `id` at all — the id is generated by
the max-scan-and-increment rule — and a generated id, being the decimal
rendering of an integer, is never the empty string. -/
theorem C10_falsy_id :
    (∀ (store : Store) (data : JsonObj),
        jget data "id" = none →
        create_event store (some (("id", "") :: data)) = create_event store (some data))
    ∧ (∀ (store : Store) (data : JsonObj) (r : StoredEvent) (s2 : Store),
        jget data "id" = some "" →
        create_event store (some data) = .ok r s2 →
        r.id = newId store ∧ r.id ≠ "") := by
  constructor
  · intro store data hid
    rw [create_event_some, create_event_some]
    rw [show jget (("id", "") :: data) "name" = jget data "name" from rfl,
        show jget (("id", "") :: data) "date" = jget data "date" from rfl,
        show jget (("id", "") :: data) "description" = jget data "description" from rfl,
        show jget (("id", "") :: data) "id" = some "" from rfl,
        hid,
        show (("id", "") :: data : JsonObj).isEmpty = false from rfl,
        show truthy (some "") = false by decide,
        show truthy (none : Option String) = false from rfl,
        if_neg Bool.false_ne_true, if_neg Bool.false_ne_true]
    by_cases hn1 : truthy (jget data "name") = true
    · have hie : data.isEmpty = false := by
        cases data with
        | nil => exact absurd hn1 (by decide)
        | cons p t => rfl
      rw [hie]
    · have hn2 : truthy (jget data "name") = false := by
        cases hbb : truthy (jget data "name") with
        | true => exact absurd hbb hn1
        | false => rfl
      simp [hn2]
  · intro store data r s2 hid hok
    have htr : truthy (jget data "id") = false := by rw [hid]; decide
    rw [create_event_some] at hok
    by_cases hval : (data.isEmpty || !truthy (jget data "name") || !truthy (jget data "date")
        || !truthy (jget data "description")) = true
    · rw [if_pos hval] at hok; cases hok
    · rw [if_neg hval, htr] at hok
      rw [if_neg Bool.false_ne_true] at hok
      dsimp only at hok
      cases hfind : findEvent store (newId store) with
      | some e => rw [hfind] at hok; cases hok
      | none =>
        rw [hfind] at hok
        cases hok
        exact ⟨rfl, newId_ne_empty store⟩

/-- Witness for C10: creating the demo body carrying the explicit empty
id over the empty store stores id "1", the generated id. -/
theorem C10_falsy_id_witness :
    jget [("name", "Demo"), ("date", "2024-01-01"), ("description", "d"), ("id", "")] "id"
      = some ""
    ∧ demoRec1.id = newId [] ∧ demoRec1.id ≠ "" := by
  refine ⟨by decide, ?_⟩
  exact C10_falsy_id.2 []
    [("name", "Demo"), ("date", "2024-01-01"), ("description", "d"), ("id", "")]
    demoRec1 [demoRec1] (by decide) (by decide)

end EventService
